import Mathlib

/-!
Verification of the smart-inventory-ai stock ledger, status evaluator,
vendor comparison, alert lifecycle, forecast cache and dashboard metrics.

Pure functions present in the repository (the stock status logic documented
in `backend/TASK_5_IMPLEMENTATION.md`, the vendor sort in
`frontend/src/components/VendorComparison.tsx`, the metrics extraction in
`frontend/src/services/metricsService.ts`, the zero-quantity guard in
`frontend/src/components/BarcodeScannerModal.tsx`) are embedded directly.
The backend service layer (`app/services/inventory_service.py`,
`app/services/alert_service.py`, the prediction cache) is not part of the
repository snapshot; those operations are modelled from the specification,
with each such definition marked in its doc comment.
-/

namespace SmartInventory

/-! ## Stock status evaluator -/

/-- Stock status enum: the three values returned by the backend status logic. -/
inductive StockStatus where
  | critical
  | low
  | sufficient
deriving DecidableEq, Repr

/-- Embeds the stock status logic documented in
`backend/TASK_5_IMPLEMENTATION.md` ("Stock Status Logic"):
`if current_stock == 0: critical elif current_stock <= reorder_threshold: low
else: sufficient`. -/
def calculate_stock_status (current_stock reorder_threshold : ℤ) : StockStatus :=
  if current_stock = 0 then .critical
  else if current_stock ≤ reorder_threshold then .low
  else .sufficient

/-! ## Vendor price comparison -/

/-- A vendor price row as consumed by `VendorComparison.tsx`. -/
structure VendorPrice where
  id : String
  vendor_name : String
  unit_price : ℚ
  lead_time_days : ℤ
  minimum_order_quantity : ℤ
deriving DecidableEq, Repr

/-- Ordering used by the comparison table: ascending unit price only. -/
def priceLe (a b : VendorPrice) : Prop := a.unit_price ≤ b.unit_price

instance : DecidableRel priceLe := fun a b =>
  inferInstanceAs (Decidable (a.unit_price ≤ b.unit_price))

instance : IsTotal VendorPrice priceLe :=
  ⟨fun a b => le_total a.unit_price b.unit_price⟩

instance : IsTrans VendorPrice priceLe :=
  ⟨fun _ _ _ hab hbc => le_trans hab hbc⟩

/-- Embeds `VendorComparison.tsx` line 43:
`[...vendors].sort((a, b) => a.unit_price - b.unit_price)` — a stable
ascending sort on `unit_price` alone (ECMAScript sorts are stable; insertion
sort with a non-strict order is stable). -/
def sortedVendors (vendors : List VendorPrice) : List VendorPrice :=
  vendors.insertionSort priceLe

/-- Embeds the rendered comparison of `VendorComparison.tsx` lines 71-72:
each sorted row paired with `isRecommended = index === 0`. -/
def vendorComparison (vendors : List VendorPrice) : List (VendorPrice × Bool) :=
  match sortedVendors vendors with
  | [] => []
  | v :: rest => (v, true) :: rest.map (fun x => (x, false))

/-! ## Dashboard metrics -/

/-- The `DashboardMetrics` interface of `metricsService.ts`. -/
structure DashboardMetrics where
  total_products : ℕ
  low_stock_count : ℕ
  active_alerts : ℕ
  total_vendors : ℕ
deriving DecidableEq, Repr

/-- The `data.database` sub-object of the backend metrics response; each
counter may be absent (optional chaining in the source). -/
structure MetricsDatabase where
  products : Option ℕ
  active_alerts : Option ℕ
  vendors : Option ℕ
deriving DecidableEq, Repr

/-- The backend metrics response body; `database` itself may be absent. -/
structure MetricsResponse where
  database : Option MetricsDatabase
deriving DecidableEq, Repr

/-- An API failure as observed by the catch block of `metricsService.ts`. -/
structure ApiError where
  message : String
deriving DecidableEq, Repr

/-- Embeds `metricsService.getDashboardMetrics`: on a successful response it
extracts `data.database?.products || 0` etc., hard-codes
`low_stock_count := 0`, and on any API error returns the all-zero record. -/
def getDashboardMetrics (resp : Except ApiError MetricsResponse) : DashboardMetrics :=
  match resp with
  | .ok data =>
    { total_products := (data.database.bind (fun d => d.products)).getD 0
      low_stock_count := 0
      active_alerts := (data.database.bind (fun d => d.active_alerts)).getD 0
      total_vendors := (data.database.bind (fun d => d.vendors)).getD 0 }
  | .error _ =>
    { total_products := 0, low_stock_count := 0, active_alerts := 0, total_vendors := 0 }

/-! ## Stock ledger -/

/-- Transaction type enum of `InventoryTransaction` (`inventoryService.ts`,
Task 6 notes). -/
inductive TransactionType where
  | addition
  | removal
  | adjustment
deriving DecidableEq, Repr

/-- The `InventoryTransaction` record of
`frontend/src/services/inventoryService.ts` lines 9-19 (ids and timestamps
abstracted to the fields the ledger invariants mention). -/
structure InventoryTransaction where
  product_id : String
  transaction_type : TransactionType
  quantity : ℤ
  previous_stock : ℤ
  new_stock : ℤ
  reason : Option String
  user_id : Option String
deriving DecidableEq, Repr

/-- Ledger-side state of a single product: its authoritative stock and its
transaction history, newest first (the retrieval order documented for
`get_movements` and `get_product_history`). -/
structure ProductState where
  current_stock : ℤ
  history : List InventoryTransaction
deriving DecidableEq, Repr

/-- The error cases of the adjustment path documented in the Task 6 notes:
`ValidationException` (zero quantity), `InsufficientStockException`
(negative resulting stock). -/
inductive AdjustError where
  | ValidationException
  | InsufficientStockException
deriving DecidableEq, Repr

/-- Modelled from the spec: the transaction-type classification of the
missing `app/services/inventory_service.py`. Section 9 of the spec fixes
sign-based classification (addition for positive, removal for negative),
and the documented response example of the repository
(`src/unnamed/part_011`, `get_product_history`) records `quantity: -30`
with reason "Sold to customer" as type `removal`. A zero quantity never
reaches this point. -/
def determine_transaction_type (quantity : ℤ) (reason : Option String) : TransactionType :=
  if 0 < quantity then .addition else .removal

/-- Modelled from the spec: `InventoryService.adjust_stock` of the missing
`app/services/inventory_service.py`, following section 4.1 of the spec and
the transaction flow documented in the Task 6 notes: reject zero quantity,
compute `new_stock = current_stock + quantity`, reject a negative result
with no mutation, otherwise update the stock and append the transaction
record as one atomic unit. -/
def adjust_stock (st : ProductState) (product_id : String) (quantity : ℤ)
    (reason : Option String) (user_id : Option String) :
    Except AdjustError (InventoryTransaction × ProductState) :=
  if quantity = 0 then .error .ValidationException
  else
    let new_stock := st.current_stock + quantity
    if new_stock < 0 then .error .InsufficientStockException
    else
      let txn : InventoryTransaction :=
        { product_id := product_id
          transaction_type := determine_transaction_type quantity reason
          quantity := quantity
          previous_stock := st.current_stock
          new_stock := new_stock
          reason := reason
          user_id := user_id }
      .ok (txn, { current_stock := new_stock, history := txn :: st.history })

/-- The product state an adjustment call leaves behind: the committed state
on success, the unchanged prior state on failure (rollback). -/
def apply_adjust (st : ProductState) (product_id : String) (quantity : ℤ)
    (reason : Option String) (user_id : Option String) : ProductState :=
  match adjust_stock st product_id quantity reason user_id with
  | .ok (_, st1) => st1
  | .error _ => st

/-- One requested adjustment: product id, signed quantity, optional reason,
optional acting user. -/
structure AdjustRequest where
  product_id : String
  quantity : ℤ
  reason : Option String
  user_id : Option String
deriving DecidableEq, Repr

/-- Runs a sequence of adjustment requests against a product state; failed
requests leave the state untouched. -/
def runAdjustments (st : ProductState) : List AdjustRequest → ProductState
  | [] => st
  | r :: rest => runAdjustments (apply_adjust st r.product_id r.quantity r.reason r.user_id) rest

/-- The ledger continuity invariant of sections 3 and 8 of the spec, for a
product created with stock `init`: every transaction satisfies
`new_stock - previous_stock = quantity`, the `previous_stock`
of each transaction equals the `new_stock` of the immediately prior one
(histories are newest first), and `current_stock` equals the `new_stock`
of the newest transaction, or `init` when the history is empty. -/
def LedgerInvariant (init : ℤ) (st : ProductState) : Prop :=
  (∀ t ∈ st.history, t.new_stock - t.previous_stock = t.quantity) ∧
  st.history.Chain' (fun newer older => newer.previous_stock = older.new_stock) ∧
  (match st.history with
   | [] => st.current_stock = init
   | t :: _ => st.current_stock = t.new_stock)

/-! ## Barcode scanner stock adjustment guard -/

/-- The toasts raised by `handleStockAdjustment` in
`BarcodeScannerModal.tsx` before any mutation is issued. -/
inductive ScanToast where
  | noProductSelected
  | quantityZero
deriving DecidableEq, Repr

/-- Embeds `handleStockAdjustment` of `BarcodeScannerModal.tsx` lines
104-120: with no scanned product it toasts and stops; with
`stockQuantity === 0` it toasts "Quantity cannot be zero" and stops;
only otherwise does it call `adjustStockMutation.mutate` with the request
(empty reason string becomes `undefined`). The returned `.ok` value is the
request handed to the mutation; an `.error` value means no adjustment call
is made. -/
def handleStockAdjustment (scanned_product_id : Option String) (stockQuantity : ℤ)
    (adjustmentReason : String) : Except ScanToast AdjustRequest :=
  match scanned_product_id with
  | none => .error .noProductSelected
  | some pid =>
    if stockQuantity = 0 then .error .quantityZero
    else
      .ok { product_id := pid
            quantity := stockQuantity
            reason := if adjustmentReason = "" then none else some adjustmentReason
            user_id := none }

/-! ## Alert lifecycle -/

/-- Alert type enum of `alertService.ts`. -/
inductive AlertType where
  | low_stock
  | predicted_depletion
deriving DecidableEq, Repr

/-- Alert severity enum of `alertService.ts`. -/
inductive AlertSeverity where
  | warning
  | critical
deriving DecidableEq, Repr

/-- Alert status enum of `alertService.ts`. -/
inductive AlertStatus where
  | active
  | acknowledged
  | resolved
deriving DecidableEq, Repr

/-- The `Alert` record of `frontend/src/services/alertService.ts`
(timestamps as abstract instants). -/
structure Alert where
  id : String
  product_id : String
  alert_type : AlertType
  severity : AlertSeverity
  message : String
  status : AlertStatus
  created_at : ℕ
  acknowledged_at : Option ℕ
  resolved_at : Option ℕ
deriving DecidableEq, Repr

/-- The failure of an alert transition invoked in a state that forbids it. -/
inductive AlertError where
  | InvalidTransition
deriving DecidableEq, Repr

/-- Modelled from the spec: `Acknowledge(alertID)` of the missing backend
alert service (section 4.5): active becomes acknowledged; acknowledging an
already-acknowledged alert is a no-op success (the section 9 choice);
acknowledging a resolved alert fails with `InvalidTransition`. The
frontend (`AlertsPanel.tsx` lines 312-324) only offers the action on
active alerts. -/
def acknowledgeAlert (a : Alert) (now : ℕ) : Except AlertError Alert :=
  match a.status with
  | .active => .ok { a with status := .acknowledged, acknowledged_at := some now }
  | .acknowledged => .ok a
  | .resolved => .error .InvalidTransition

/-- Modelled from the spec: `Resolve(alertID)` of the missing backend alert
service (section 4.5): active or acknowledged becomes resolved; resolving
an already-resolved alert is an idempotent no-op success. -/
def resolveAlert (a : Alert) (now : ℕ) : Except AlertError Alert :=
  match a.status with
  | .resolved => .ok a
  | _ => .ok { a with status := .resolved, resolved_at := some now }

/-! ## Alert engine state -/

/-- An alert is open while its status is active or acknowledged. -/
def Alert.isOpen (a : Alert) : Bool :=
  a.status = AlertStatus.active ∨ a.status = AlertStatus.acknowledged

/-- An open alert belonging to one (product, alert type) pair. -/
def Alert.isOpenFor (a : Alert) (pid : String) (ty : AlertType) : Bool :=
  a.isOpen ∧ a.product_id = pid ∧ a.alert_type = ty

/-- The open alerts of a store for one (product, alert type) pair. -/
def openAlertsFor (s : List Alert) (pid : String) (ty : AlertType) : List Alert :=
  s.filter (fun a => a.isOpenFor pid ty)

/-- Whether the store holds an open alert for the pair. -/
def hasOpenAlert (s : List Alert) (pid : String) (ty : AlertType) : Bool :=
  s.any (fun a => a.isOpenFor pid ty)

/-- Modelled from the spec: the creation path of `Evaluate` in the missing
backend alert engine (section 4.5): when a triggering condition fires, an
existing open alert for the (product, type) pair is updated in place
(severity and message refreshed, status kept); only when no open alert
exists is a fresh active alert appended. -/
def triggerAlert (s : List Alert) (i pid : String) (ty : AlertType)
    (sev : AlertSeverity) (msg : String) (now : ℕ) : List Alert :=
  if hasOpenAlert s pid ty then
    s.map (fun a =>
      if a.isOpenFor pid ty then
        { a with severity := sev, message := msg }
      else a)
  else
    s ++ [{ id := i, product_id := pid, alert_type := ty, severity := sev,
            message := msg, status := .active, created_at := now,
            acknowledged_at := none, resolved_at := none }]

/-- Modelled from the spec: auto-resolution in `Evaluate` (section 4.5):
when the triggering condition clears, every open alert for the pair is
resolved. -/
def autoResolveAlerts (s : List Alert) (pid : String) (ty : AlertType)
    (now : ℕ) : List Alert :=
  s.map (fun a =>
    if a.isOpenFor pid ty then
      { a with status := .resolved, resolved_at := some now }
    else a)

/-- Applies `acknowledgeAlert` to the alert with the given id, keeping the
alert unchanged when the transition is rejected. -/
def acknowledgeById (s : List Alert) (i : String) (now : ℕ) : List Alert :=
  s.map (fun a =>
    if a.id = i then
      match acknowledgeAlert a now with
      | .ok a1 => a1
      | .error _ => a
    else a)

/-- Applies `resolveAlert` to the alert with the given id. -/
def resolveById (s : List Alert) (i : String) (now : ℕ) : List Alert :=
  s.map (fun a =>
    if a.id = i then
      match resolveAlert a now with
      | .ok a1 => a1
      | .error _ => a
    else a)

/-- Alert stores reachable from the empty store through the operations of
the alert engine: triggering conditions, manual acknowledge and resolve, and
auto-resolution. -/
inductive ReachableAlertState : List Alert → Prop where
  | empty : ReachableAlertState []
  | trigger (s : List Alert) (i pid : String) (ty : AlertType)
      (sev : AlertSeverity) (msg : String) (now : ℕ) :
      ReachableAlertState s → ReachableAlertState (triggerAlert s i pid ty sev msg now)
  | ack (s : List Alert) (i : String) (now : ℕ) :
      ReachableAlertState s → ReachableAlertState (acknowledgeById s i now)
  | resolve (s : List Alert) (i : String) (now : ℕ) :
      ReachableAlertState s → ReachableAlertState (resolveById s i now)
  | autoResolve (s : List Alert) (pid : String) (ty : AlertType) (now : ℕ) :
      ReachableAlertState s → ReachableAlertState (autoResolveAlerts s pid ty now)

/-! ## Forecast cache -/

/-- The cached forecast payload (`ForecastResult` of section 3; the raw
series and metadata are abstracted into the fields the caching claims
mention). -/
structure ForecastResult where
  product_id : String
  horizon_days : ℕ
  daily_consumption_rate : ℚ
  predicted_depletion_date : Option ℕ
  confidence_score : ℚ
deriving DecidableEq, Repr

/-- A cache slot: the stored result and its generation instant. -/
structure CacheEntry where
  result : ForecastResult
  generated_at : ℕ
deriving DecidableEq, Repr

/-- Modelled from the spec: the forecast cache state of section 4.3 —
results keyed by (productID, horizonDays), with a configurable TTL. -/
structure ForecastCache where
  ttl : ℕ
  entries : List ((String × ℕ) × CacheEntry)
deriving DecidableEq, Repr

/-- Looks up a non-expired entry for (productID, horizonDays):
the stored result is fresh while `now < generated_at + ttl`. -/
def lookupFresh (c : ForecastCache) (pid : String) (horizon : ℕ)
    (now : ℕ) : Option ForecastResult :=
  match c.entries.find? (fun e => e.fst = (pid, horizon)) with
  | some e => if now < e.snd.generated_at + c.ttl then some e.snd.result else none
  | none => none

/-- Stores a freshly computed result, replacing any entry under the same
key (results are replaced wholesale, never mutated in place). -/
def storeResult (c : ForecastCache) (pid : String) (horizon : ℕ)
    (r : ForecastResult) (now : ℕ) : ForecastCache :=
  { c with entries :=
      ((pid, horizon), { result := r, generated_at := now }) ::
        c.entries.filter (fun e => ¬ e.fst = (pid, horizon)) }

/-- Modelled from the spec: `GetForecast(productID, horizonDays, useCache)`
of the missing backend prediction service (section 4.3): with `useCache`
set and a non-expired cached result present, that result is returned and
the external forecaster is not invoked; otherwise the external capability
(here a pure parameter) is called and its result stored. The boolean in
the returned triple records whether the external forecaster was invoked. -/
def getForecast (c : ForecastCache) (forecaster : String → ℕ → ForecastResult)
    (pid : String) (horizon : ℕ) (useCache : Bool) (now : ℕ) :
    ForecastResult × ForecastCache × Bool :=
  match (if useCache then lookupFresh c pid horizon now else none) with
  | some r => (r, c, false)
  | none =>
    let r := forecaster pid horizon
    (r, storeResult c pid horizon r now, true)

/-- Modelled from the spec: `Invalidate(productID)` (section 4.3): removes
every cached result for the product, forcing the next `GetForecast` to
recompute regardless of TTL. -/
def invalidateForecasts (c : ForecastCache) (pid : String) : ForecastCache :=
  { c with entries := c.entries.filter (fun e => ¬ e.fst.fst = pid) }

/-! ## Theorems -/

/-- C2: the stock status evaluator is a pure total function; for
non-negative stock and threshold it returns critical exactly on zero stock,
low exactly on positive stock within the threshold, sufficient otherwise;
at threshold zero, stock zero is critical and stock one is sufficient. -/
theorem calculate_stock_status_spec (s t : ℤ) (hs : 0 ≤ s) (ht : 0 ≤ t) :
    (calculate_stock_status s t = .critical ↔ s = 0) ∧
    (calculate_stock_status s t = .low ↔ 0 < s ∧ s ≤ t) ∧
    (calculate_stock_status s t = .sufficient ↔ ¬ s = 0 ∧ ¬ (0 < s ∧ s ≤ t)) ∧
    calculate_stock_status 0 0 = .critical ∧
    calculate_stock_status 1 0 = .sufficient := by
  refine ⟨?_, ?_, ?_, by decide, by decide⟩ <;>
    · unfold calculate_stock_status
      split_ifs with h1 h2 <;> simp_all <;> omega

/-- Witness for C2 at stock 1, threshold 0. -/
theorem calculate_stock_status_spec_witness :
    (0 : ℤ) ≤ 1 ∧ (0 : ℤ) ≤ 0 ∧
    (calculate_stock_status 1 0 = .low ↔ (0 : ℤ) < 1 ∧ (1 : ℤ) ≤ 0) := by
  refine ⟨by decide, by decide, ?_⟩
  exact (calculate_stock_status_spec 1 0 (by decide) (by decide)).2.1

/-- C10: `getDashboardMetrics` is a total function that never propagates an
error; `low_stock_count` is 0 on every input, and every API error yields
the all-zero metrics record. -/
theorem getDashboardMetrics_never_throws (resp : Except ApiError MetricsResponse) :
    (getDashboardMetrics resp).low_stock_count = 0 ∧
    (∀ e : ApiError, getDashboardMetrics (.error e) =
      { total_products := 0, low_stock_count := 0, active_alerts := 0, total_vendors := 0 }) := by
  constructor
  · cases resp <;> rfl
  · intro e; rfl

/-- C5: acknowledging an active alert yields an acknowledged alert;
acknowledging a resolved alert fails with `InvalidTransition`; resolving an
active or acknowledged alert yields a resolved alert; resolving a resolved
alert is an idempotent no-op success. -/
theorem alert_transition_contract (a : Alert) (now : ℕ) :
    acknowledgeAlert { a with status := .active } now =
      .ok { a with status := .acknowledged, acknowledged_at := some now } ∧
    acknowledgeAlert { a with status := .resolved } now = .error .InvalidTransition ∧
    resolveAlert { a with status := .active } now =
      .ok { a with status := .resolved, resolved_at := some now } ∧
    resolveAlert { a with status := .acknowledged } now =
      .ok { a with status := .resolved, resolved_at := some now } ∧
    resolveAlert { a with status := .resolved } now = .ok { a with status := .resolved } :=
  ⟨rfl, rfl, rfl, rfl, rfl⟩

/-- C8: a zero-quantity adjustment is rejected as a validation error before
any mutation: the ledger call fails with `ValidationException` and leaves
the state unchanged, and the barcode modal never issues the mutation call
(quantity-zero toast with a selected product, no-product toast without). -/
theorem adjust_zero_quantity_rejected (st : ProductState) (pid : String)
    (r u : Option String) (spid reasonText : String) :
    adjust_stock st pid 0 r u = .error .ValidationException ∧
    apply_adjust st pid 0 r u = st ∧
    handleStockAdjustment (some spid) 0 reasonText = .error .quantityZero ∧
    handleStockAdjustment none 0 reasonText = .error .noProductSelected :=
  ⟨rfl, rfl, rfl, rfl⟩

/-- C1: an adjustment that would drive the stock negative fails with
`InsufficientStockException` and performs no mutation: the product state
(current stock and transaction history) after the failed call equals the
state before it. -/
theorem adjust_stock_insufficient_no_mutation (st : ProductState) (pid : String)
    (q : ℤ) (r u : Option String) (h0 : 0 ≤ st.current_stock)
    (hneg : st.current_stock + q < 0) :
    adjust_stock st pid q r u = .error .InsufficientStockException ∧
    apply_adjust st pid q r u = st := by
  have hq : ¬ q = 0 := by intro h; rw [h] at hneg; omega
  constructor
  · simp [adjust_stock, hq, hneg]
  · simp [apply_adjust, adjust_stock, hq, hneg]

/-- Witness for C1: scenario B, stock 50, adjustment of -60. -/
theorem adjust_stock_insufficient_no_mutation_witness :
    (0 : ℤ) ≤ (ProductState.mk 50 []).current_stock ∧
    (ProductState.mk 50 []).current_stock + (-60) < 0 ∧
    adjust_stock ⟨50, []⟩ "P1" (-60) none none = .error .InsufficientStockException ∧
    apply_adjust ⟨50, []⟩ "P1" (-60) none none = ⟨50, []⟩ := by
  have h := adjust_stock_insufficient_no_mutation ⟨50, []⟩ "P1" (-60) none none
    (by decide) (by decide)
  exact ⟨by decide, by decide, h.1, h.2⟩

/-- C7 counterexample: the documented history example of the repository (stock
150, quantity -30, reason "Sold to customer") records type `removal`, not
`adjustment`, although a reason is present. -/
theorem transaction_type_reason_counterexample :
    (adjust_stock ⟨150, []⟩ "P1" (-30) (some "Sold to customer") (some "U1")).map
      (fun p => p.1.transaction_type) = .ok .removal ∧
    TransactionType.removal ≠ TransactionType.adjustment :=
  ⟨rfl, by decide⟩

/-- C7 amended: a successful adjustment records type `addition` for a
positive quantity and `removal` for a negative quantity, irrespective of
whether a reason is given. -/
theorem transaction_type_sign_based (st : ProductState) (pid : String) (q : ℤ)
    (r u : Option String) (txn : InventoryTransaction) (st1 : ProductState)
    (h : adjust_stock st pid q r u = .ok (txn, st1)) :
    (0 < q → txn.transaction_type = .addition) ∧
    (q < 0 → txn.transaction_type = .removal) := by
  by_cases hq : q = 0
  · simp [adjust_stock, hq] at h
  · by_cases hneg : st.current_stock + q < 0
    · simp [adjust_stock, hq, hneg] at h
    · simp [adjust_stock, hq, hneg] at h
      obtain ⟨htxn, _⟩ := h
      constructor
      · intro hpos
        rw [← htxn]
        simp [determine_transaction_type, hpos]
      · intro hneg1
        rw [← htxn]
        have : ¬ 0 < q := by omega
        simp [determine_transaction_type, this]

/-- Witness for C7 amended at the documented example input. -/
theorem transaction_type_sign_based_witness :
    adjust_stock ⟨150, []⟩ "P1" (-30) (some "Sold to customer") (some "U1") =
      .ok (⟨"P1", .removal, -30, 150, 120, some "Sold to customer", some "U1"⟩,
           ⟨120, [⟨"P1", .removal, -30, 150, 120, some "Sold to customer", some "U1"⟩]⟩) ∧
    (-30 : ℤ) < 0 ∧
    (InventoryTransaction.mk "P1" .removal (-30) 150 120
      (some "Sold to customer") (some "U1")).transaction_type = .removal := by
  have h : adjust_stock ⟨150, []⟩ "P1" (-30) (some "Sold to customer") (some "U1") =
      .ok (⟨"P1", .removal, -30, 150, 120, some "Sold to customer", some "U1"⟩,
           ⟨120, [⟨"P1", .removal, -30, 150, 120, some "Sold to customer", some "U1"⟩]⟩) := rfl
  exact ⟨h, by decide,
    (transaction_type_sign_based _ _ _ _ _ _ _ h).2 (by decide)⟩

/-- Scenario D vendor V1: unit price 10, lead time 5 days. -/
def vendorV1 : VendorPrice := ⟨"v1", "V1", 10, 5, 1⟩

/-- Scenario D vendor V2: unit price 10, lead time 3 days. -/
def vendorV2 : VendorPrice := ⟨"v2", "V2", 10, 3, 1⟩

/-- Scenario D vendor V3: unit price 12, lead time 1 day. -/
def vendorV3 : VendorPrice := ⟨"v3", "V3", 12, 1, 1⟩

/-- The base list of a comparison: the rows without their recommendation
flags. -/
def comparisonRows (l : List VendorPrice) : List VendorPrice :=
  (vendorComparison l).map Prod.fst

/-- The recommendation flags of a comparison, in row order. -/
def comparisonFlags (l : List VendorPrice) : List Bool :=
  (vendorComparison l).map Prod.snd

theorem comparisonRows_eq_sorted (l : List VendorPrice) :
    comparisonRows l = sortedVendors l := by
  unfold comparisonRows
  cases h : sortedVendors l with
  | nil => simp [vendorComparison, h]
  | cons v rest => simp [vendorComparison, h, List.map_map, Function.comp_def]

/-- C3 counterexample: on the scenario D input the comparison in the code (a
stable sort by unit price alone) orders the rows V1, V2, V3 and recommends
V1 — not the claimed order V2, V1, V3 with V2 recommended. -/
theorem vendorComparison_scenarioD_counterexample :
    ((vendorComparison [vendorV1, vendorV2, vendorV3]).map
      (fun p => (p.1.vendor_name, p.2))) =
      [("V1", true), ("V2", false), ("V3", false)] ∧
    ((vendorComparison [vendorV1, vendorV2, vendorV3]).map
      (fun p => (p.1.vendor_name, p.2))) ≠
      [("V2", true), ("V1", false), ("V3", false)] := by
  constructor
  · rfl
  · intro h
    exact absurd (congrArg (fun x => x.head?) h) (by decide)

/-- C3 amended: `vendorComparison` returns the input rows stably sorted
ascending by unit price alone — lead time is not consulted, ties keep the
input order — with `is_recommended` true on exactly the first row; the
empty list yields the empty list. On the scenario D input the order is
therefore V1, V2, V3 with only V1 recommended. -/
theorem vendorComparison_price_sort_spec (l : List VendorPrice) :
    List.Perm (comparisonRows l) l ∧
    (comparisonRows l).Sorted priceLe ∧
    comparisonFlags l = (List.range l.length).map (fun i => decide (i = 0)) ∧
    vendorComparison [] = [] := by
  refine ⟨?_, ?_, ?_, rfl⟩
  · rw [comparisonRows_eq_sorted]
    exact List.perm_insertionSort priceLe l
  · rw [comparisonRows_eq_sorted]
    exact List.sorted_insertionSort priceLe l
  · have hlen : (sortedVendors l).length = l.length :=
      (List.perm_insertionSort priceLe l).length_eq
    unfold comparisonFlags
    cases h : sortedVendors l with
    | nil =>
      rw [h] at hlen
      simp [vendorComparison, h, ← hlen]
    | cons v rest =>
      rw [h] at hlen
      rw [← hlen]
      simp [vendorComparison, h, List.map_map, Function.comp_def,
        List.range_succ_eq_map, List.map_const', List.length_range]

theorem LedgerInvariant_apply_adjust (init : ℤ) (st : ProductState)
    (h : LedgerInvariant init st) (pid : String) (q : ℤ) (r u : Option String) :
    LedgerInvariant init (apply_adjust st pid q r u) := by
  by_cases hq : q = 0
  · simpa [apply_adjust, adjust_stock, hq] using h
  · by_cases hneg : st.current_stock + q < 0
    · simpa [apply_adjust, adjust_stock, hq, hneg] using h
    · have happ : apply_adjust st pid q r u =
          { current_stock := st.current_stock + q,
            history :=
              { product_id := pid
                transaction_type := determine_transaction_type q r
                quantity := q
                previous_stock := st.current_stock
                new_stock := st.current_stock + q
                reason := r
                user_id := u } :: st.history } := by
        simp [apply_adjust, adjust_stock, hq, hneg]
      rw [happ]
      obtain ⟨hdelta, hchain, hcur⟩ := h
      refine ⟨?_, ?_, ?_⟩
      · intro t ht
        rcases List.mem_cons.mp ht with rfl | ht1
        · simp
        · exact hdelta t ht1
      · refine List.Chain'.cons' hchain ?_
        intro t0 ht0
        cases hh : st.history with
        | nil => rw [hh] at ht0; simp at ht0
        | cons t1 rest =>
          rw [hh] at ht0
          simp at ht0
          rw [hh] at hcur
          simp at hcur
          rw [ht0] at hcur
          simpa using hcur
      · simp

/-- C4: after every sequence of adjustment calls starting from a freshly
created product (stock `init`, empty history), the ledger continuity
invariant holds: each transaction satisfies
`new_stock - previous_stock = quantity`, the `previous_stock` of
each transaction equals the `new_stock` of the immediately prior
transaction, and `current_stock` equals the `new_stock` of the newest
transaction (or `init` on an empty history). Failed calls leave the state
untouched, so the invariant also survives interleaved rejected calls. -/
theorem ledger_continuity (init : ℤ) (ops : List AdjustRequest) :
    LedgerInvariant init (runAdjustments ⟨init, []⟩ ops) := by
  have step : ∀ (ops1 : List AdjustRequest) (st : ProductState),
      LedgerInvariant init st → LedgerInvariant init (runAdjustments st ops1) := by
    intro ops1
    induction ops1 with
    | nil => intro st h; exact h
    | cons op rest ih =>
      intro st h
      exact ih _ (LedgerInvariant_apply_adjust init st h
        op.product_id op.quantity op.reason op.user_id)
  exact step ops ⟨init, []⟩ ⟨by simp, by simp, rfl⟩

/-- The one-open-alert invariant: at most one open alert per
(product, alert type) pair. -/
def OneOpenAlertInvariant (s : List Alert) : Prop :=
  ∀ pid ty, (openAlertsFor s pid ty).length ≤ 1

theorem openAlertsFor_map_length_le (s : List Alert) (f : Alert → Alert)
    (pid : String) (ty : AlertType)
    (hf : ∀ a, (f a).isOpenFor pid ty = true → a.isOpenFor pid ty = true) :
    (openAlertsFor (s.map f) pid ty).length ≤ (openAlertsFor s pid ty).length := by
  unfold openAlertsFor
  rw [List.filter_map, List.length_map]
  exact (List.monotone_filter_right s (fun a ha => hf a ha)).length_le

theorem isOpenFor_update_severity (a : Alert) (sev : AlertSeverity) (msg : String)
    (pid : String) (ty : AlertType) :
    ({ a with severity := sev, message := msg } : Alert).isOpenFor pid ty =
      a.isOpenFor pid ty := by
  simp [Alert.isOpenFor, Alert.isOpen]

theorem isOpenFor_resolved (a : Alert) (now : ℕ) (pid : String) (ty : AlertType) :
    ({ a with status := .resolved, resolved_at := some now } : Alert).isOpenFor pid ty =
      false := by
  simp [Alert.isOpenFor, Alert.isOpen]

theorem OneOpenAlertInvariant_trigger (s : List Alert) (i pid : String)
    (ty : AlertType) (sev : AlertSeverity) (msg : String) (now : ℕ)
    (h : OneOpenAlertInvariant s) :
    OneOpenAlertInvariant (triggerAlert s i pid ty sev msg now) := by
  intro pid1 ty1
  unfold triggerAlert
  split
  case isTrue hopen =>
    refine le_trans (openAlertsFor_map_length_le s _ pid1 ty1 ?_) (h pid1 ty1)
    intro a ha
    by_cases hc : a.isOpenFor pid ty = true
    · rw [if_pos hc, isOpenFor_update_severity] at ha
      exact ha
    · rw [if_neg hc] at ha
      exact ha
  case isFalse hclosed =>
    unfold openAlertsFor
    rw [List.filter_append]
    by_cases hmatch : pid1 = pid ∧ ty1 = ty
    · obtain ⟨rfl, rfl⟩ := hmatch
      have hnone : s.filter (fun a => a.isOpenFor pid1 ty1) = [] := by
        rw [List.filter_eq_nil_iff]
        intro a ha hopen1
        exact hclosed (List.any_eq_true.mpr ⟨a, ha, hopen1⟩)
      rw [hnone]
      exact le_trans (List.length_filter_le _ _) (by simp)
    · have hnew : List.filter (fun a => a.isOpenFor pid1 ty1)
          [({ id := i, product_id := pid, alert_type := ty, severity := sev,
              message := msg, status := .active, created_at := now,
              acknowledged_at := none, resolved_at := none } : Alert)] = [] := by
        rw [List.filter_eq_nil_iff]
        intro a ha hopen1
        simp at ha
        rw [ha] at hopen1
        simp [Alert.isOpenFor, Alert.isOpen] at hopen1
        exact hmatch ⟨hopen1.1.symm, hopen1.2.symm⟩
      rw [hnew, List.append_nil]
      exact h pid1 ty1

theorem OneOpenAlertInvariant_ack (s : List Alert) (i : String) (now : ℕ)
    (h : OneOpenAlertInvariant s) :
    OneOpenAlertInvariant (acknowledgeById s i now) := by
  intro pid1 ty1
  refine le_trans (openAlertsFor_map_length_le s _ pid1 ty1 ?_) (h pid1 ty1)
  intro a ha
  by_cases hid : a.id = i
  · rw [if_pos hid] at ha
    cases hst : a.status with
    | active =>
      rw [show acknowledgeAlert a now =
          .ok { a with status := .acknowledged, acknowledged_at := some now } from by
        simp [acknowledgeAlert, hst]] at ha
      simp [Alert.isOpenFor, Alert.isOpen] at ha ⊢
      simp [hst, ha.1, ha.2]
    | acknowledged =>
      rwa [show acknowledgeAlert a now = .ok a from by simp [acknowledgeAlert, hst]] at ha
    | resolved =>
      rwa [show acknowledgeAlert a now = .error .InvalidTransition from by
        simp [acknowledgeAlert, hst]] at ha
  · rwa [if_neg hid] at ha

theorem OneOpenAlertInvariant_resolve (s : List Alert) (i : String) (now : ℕ)
    (h : OneOpenAlertInvariant s) :
    OneOpenAlertInvariant (resolveById s i now) := by
  intro pid1 ty1
  refine le_trans (openAlertsFor_map_length_le s _ pid1 ty1 ?_) (h pid1 ty1)
  intro a ha
  by_cases hid : a.id = i
  · rw [if_pos hid] at ha
    cases hst : a.status with
    | active =>
      rw [show resolveAlert a now =
          .ok { a with status := .resolved, resolved_at := some now } from by
        simp [resolveAlert, hst], isOpenFor_resolved] at ha
      exact absurd ha (by simp)
    | acknowledged =>
      rw [show resolveAlert a now =
          .ok { a with status := .resolved, resolved_at := some now } from by
        simp [resolveAlert, hst], isOpenFor_resolved] at ha
      exact absurd ha (by simp)
    | resolved =>
      rwa [show resolveAlert a now = .ok a from by simp [resolveAlert, hst]] at ha
  · rwa [if_neg hid] at ha

theorem OneOpenAlertInvariant_autoResolve (s : List Alert) (pid : String)
    (ty : AlertType) (now : ℕ) (h : OneOpenAlertInvariant s) :
    OneOpenAlertInvariant (autoResolveAlerts s pid ty now) := by
  intro pid1 ty1
  refine le_trans (openAlertsFor_map_length_le s _ pid1 ty1 ?_) (h pid1 ty1)
  intro a ha
  by_cases hc : a.isOpenFor pid ty = true
  · rw [if_pos hc, isOpenFor_resolved] at ha
    exact absurd ha (by simp)
  · rwa [if_neg hc] at ha

/-- C6: in every alert store reachable from the empty store through the
operations of the alert engine there is at most one open (active or
acknowledged) alert per (product, alert type) pair; and when a triggering
condition fires while an open alert of that type already exists, the store
size is unchanged — the existing alert is updated and no duplicate is
created. -/
theorem one_open_alert_invariant :
    (∀ s, ReachableAlertState s → OneOpenAlertInvariant s) ∧
    (∀ s (i pid : String) (ty : AlertType) (sev : AlertSeverity) (msg : String)
      (now : ℕ), hasOpenAlert s pid ty = true →
        (triggerAlert s i pid ty sev msg now).length = s.length) := by
  constructor
  · intro s hs
    induction hs with
    | empty => intro pid ty; simp [openAlertsFor]
    | trigger s i pid ty sev msg now _ ih =>
      exact OneOpenAlertInvariant_trigger s i pid ty sev msg now ih
    | ack s i now _ ih => exact OneOpenAlertInvariant_ack s i now ih
    | resolve s i now _ ih => exact OneOpenAlertInvariant_resolve s i now ih
    | autoResolve s pid ty now _ ih =>
      exact OneOpenAlertInvariant_autoResolve s pid ty now ih
  · intro s i pid ty sev msg now hopen
    unfold triggerAlert
    rw [if_pos hopen, List.length_map]

/-- A concrete open low-stock alert used as witness data. -/
def alertA0 : Alert :=
  ⟨"A1", "P1", .low_stock, .warning, "low stock", .active, 0, none, none⟩

/-- Witness for C6: the empty store is reachable and satisfies the
invariant, and a trigger on a store already holding an open low-stock
alert for the product leaves the store size unchanged. -/
theorem one_open_alert_invariant_witness :
    (openAlertsFor [] "P1" AlertType.low_stock).length ≤ 1 ∧
    hasOpenAlert [alertA0] "P1" AlertType.low_stock = true ∧
    (triggerAlert [alertA0] "A2" "P1" AlertType.low_stock .critical "low" 5).length =
      [alertA0].length := by
  have hopen : hasOpenAlert [alertA0] "P1" AlertType.low_stock = true := by decide
  exact ⟨one_open_alert_invariant.1 [] ReachableAlertState.empty "P1" .low_stock,
    hopen,
    one_open_alert_invariant.2 [alertA0] "A2" "P1" .low_stock .critical "low" 5 hopen⟩

/-- C9: with `useCache` set, a non-expired cached result for
(productID, horizonDays) is returned unchanged, without invoking the
external forecaster and without touching the cache; a cache miss invokes
the forecaster and stores its result; an entry whose TTL has elapsed no
longer counts as fresh; and after `Invalidate(productID)` the lookup
misses, so the next call invokes the forecaster. -/
theorem forecast_cache_behavior (c : ForecastCache)
    (f : String → ℕ → ForecastResult) (pid : String) (horizon now : ℕ) :
    (∀ r, lookupFresh c pid horizon now = some r →
      getForecast c f pid horizon true now = (r, c, false)) ∧
    (lookupFresh c pid horizon now = none →
      getForecast c f pid horizon true now =
        (f pid horizon, storeResult c pid horizon (f pid horizon) now, true)) ∧
    (∀ e, c.entries.find? (fun e1 => e1.fst = (pid, horizon)) = some e →
      e.snd.generated_at + c.ttl ≤ now →
        lookupFresh c pid horizon now = none) ∧
    lookupFresh (invalidateForecasts c pid) pid horizon now = none ∧
    (getForecast (invalidateForecasts c pid) f pid horizon true now).2.2 = true := by
  have hinv : lookupFresh (invalidateForecasts c pid) pid horizon now = none := by
    have hfind : (invalidateForecasts c pid).entries.find?
        (fun e1 => e1.fst = (pid, horizon)) = none := by
      rw [List.find?_eq_none]
      intro x hx
      unfold invalidateForecasts at hx
      simp [List.mem_filter] at hx
      intro heq
      exact hx.2 (by rw [of_decide_eq_true heq])
    simp [lookupFresh, hfind]
  refine ⟨?_, ?_, ?_, hinv, ?_⟩
  · intro r h
    simp [getForecast, h]
  · intro h
    simp [getForecast, h]
  · intro e hfind hexp
    unfold lookupFresh
    rw [hfind]
    show (if now < e.snd.generated_at + c.ttl then some e.snd.result else none) = none
    rw [if_neg]
    omega
  · simp [getForecast, hinv]

/-- Cached forecast payload used as witness data. -/
def forecastW : ForecastResult := ⟨"P1", 30, 2, some 40, 9 / 10⟩

/-- Freshly computed forecast payload used as witness data. -/
def forecastW2 : ForecastResult := ⟨"P1", 30, 3, some 50, 1 / 2⟩

/-- External forecaster used as witness data. -/
def forecasterW : String → ℕ → ForecastResult := fun _ _ => forecastW2

/-- A one-entry cache (TTL 10, generated at 0) used as witness data. -/
def cacheW : ForecastCache := ⟨10, [(("P1", 30), ⟨forecastW, 0⟩)]⟩

/-- Witness for C9: at instant 5 the cached entry is fresh and returned
without recomputation; on the empty cache the forecaster runs and its
result is stored; at instant 20 the entry (generated at 0, TTL 10) has
expired and the lookup misses. -/
theorem forecast_cache_behavior_witness :
    lookupFresh cacheW "P1" 30 5 = some forecastW ∧
    getForecast cacheW forecasterW "P1" 30 true 5 = (forecastW, cacheW, false) ∧
    lookupFresh (ForecastCache.mk 10 []) "P1" 30 5 = none ∧
    getForecast ⟨10, []⟩ forecasterW "P1" 30 true 5 =
      (forecastW2, storeResult ⟨10, []⟩ "P1" 30 forecastW2 5, true) ∧
    cacheW.entries.find? (fun e1 => e1.fst = ("P1", 30)) =
      some (("P1", 30), ⟨forecastW, 0⟩) ∧
    (0 : ℕ) + 10 ≤ 20 ∧
    lookupFresh cacheW "P1" 30 20 = none := by
  have hfresh : lookupFresh cacheW "P1" 30 5 = some forecastW := rfl
  have hmiss : lookupFresh (ForecastCache.mk 10 []) "P1" 30 5 = none := rfl
  have hfind : cacheW.entries.find? (fun e1 => e1.fst = ("P1", 30)) =
      some (("P1", 30), ⟨forecastW, 0⟩) := rfl
  exact ⟨hfresh,
    (forecast_cache_behavior cacheW forecasterW "P1" 30 5).1 forecastW hfresh,
    hmiss,
    (forecast_cache_behavior ⟨10, []⟩ forecasterW "P1" 30 5).2.1 hmiss,
    hfind, by norm_num,
    (forecast_cache_behavior cacheW forecasterW "P1" 30 20).2.2.1 _ hfind (by decide)⟩

end SmartInventory
